import Mathlib

/-!
# Verification of the weewx-aprs packet formatter

Shallow embedding of `bin/user/aprs-formatter.py` (class `APRS`): the profile
resolution performed by `APRS.__init__` and the packet encoding performed by
`APRS._handle_new_archive_record`, together with the Python numeric-formatting
primitives (`%0N.f`, `%0Nu`, `%03.u`, `round(x, 0)`, `datetime.strftime` over
`datetime.utcfromtimestamp`) that the encoder relies on.

Numeric observation values are modelled as rationals; Python `round` and
`%.0f` round half to even, `%u`/`%d` truncate toward zero, and a negative
value that rounds to zero renders with Python's negative-zero sign under
`%.f`.  Machine-specific binary floating point representation is not
modelled.  Raised exceptions are modelled by `Except.error`: the encoder can
raise (and the development proves exactly where) because two of its
`except`-handlers dereference the very thing whose failure they handle.
-/

deriving instance DecidableEq for Except

namespace WeewxAprs

/-- Round half to even of the fraction `n / d` (for `d > 0`), computed with
Euclidean division so that it evaluates by kernel reduction. -/
def pyRoundPair (n : Int) (d : Int) : Int :=
  let f := n / d
  let r := n % d
  if 2 * r < d then f
  else if d < 2 * r then f + 1
  else if f % 2 = 0 then f else f + 1

/-- Python `int(round(x, 0))`: round half to even to an integer. -/
def pyRound (x : Rat) : Int :=
  pyRoundPair x.num (x.den : Int)

/-- Python `int(x)` truncation toward zero (the conversion `%u`/`%d` apply
to a float argument). -/
def pyTrunc (x : Rat) : Int :=
  Int.tdiv x.num (x.den : Int)

/-- Value-level specification of round half to even, phrased with `Int.floor`
and `Int.fract`; `pyRound` is proved to agree with it. -/
def valRound (q : Rat) : Int :=
  if Int.fract q < 1 / 2 then ⌊q⌋
  else if 1 / 2 < Int.fract q then ⌊q⌋ + 1
  else if Int.emod ⌊q⌋ 2 = 0 then ⌊q⌋ else ⌊q⌋ + 1

/-- Decimal digits of a natural number, most significant first; `fuel`
bounds the recursion depth and any `fuel > n` is enough. -/
def natDigitsCore : Nat → Nat → List Char
  | 0, _ => []
  | fuel + 1, n =>
    if n < 10 then [Char.ofNat (48 + n)]
    else natDigitsCore fuel (n / 10) ++ [Char.ofNat (48 + n % 10)]

/-- Decimal digit string of a natural number, e.g. `natDigits 42 = ['4','2']`. -/
def natDigits (n : Nat) : List Char :=
  natDigitsCore (n + 1) n

/-- Left-pad a character list with `'0'` up to width `w`. -/
def zfillChars (w : Nat) (l : List Char) : List Char :=
  List.replicate (w - l.length) '0' ++ l

/-- Python `'%0Nd' % n` (and `'%0Nu' % n`, which Python 3 treats as `%d`):
zero-pad to a minimum field width `w`; for a negative value the sign comes
first and counts toward the width (`'%05d' % -42 = "-0042"`). -/
def fmtInt (w : Nat) (n : Int) : String :=
  if n < 0 then String.mk ('-' :: zfillChars (w - 1) (natDigits n.natAbs))
  else String.mk (zfillChars w (natDigits n.natAbs))

/-- Python `'%0N.f' % x`: round half to even to zero decimals, then zero-pad
to a minimum field width `w`, the sign counting toward the width; a negative
value rounding to zero keeps its sign (`'%03.f' % -0.4 = "-00"`). -/
def fmtF (w : Nat) (x : Rat) : String :=
  let n := pyRound x
  if n < 0 ∨ (n = 0 ∧ x < 0) then
    String.mk ('-' :: zfillChars (w - 1) (natDigits n.natAbs))
  else fmtInt w n

/-- Civil date (year, month, day) of a day count relative to 1970-01-01
(Howard Hinnant's `civil_from_days`, as performed inside
`datetime.utcfromtimestamp`). -/
def civilFromDays (z0 : Int) : Int × Nat × Nat :=
  let z := z0 + 719468
  let era : Int := Int.ediv z 146097
  let doe : Nat := (Int.emod z 146097).toNat
  let yoe : Nat := (doe - doe / 1460 + doe / 36524 - doe / 146096) / 365
  let doy : Nat := doe - (365 * yoe + yoe / 4 - yoe / 100)
  let mp : Nat := (5 * doy + 2) / 153
  let d : Nat := doy - (153 * mp + 2) / 5 + 1
  let m : Nat := if mp < 10 then mp + 3 else mp - 9
  (era * 400 + yoe + (if m ≤ 2 then 1 else 0), m, d)

/-- `datetime.utcfromtimestamp`: UTC (year, month, day, hour, minute) of a
Unix timestamp. -/
def utcFromTimestamp (t : Int) : Int × Nat × Nat × Nat × Nat :=
  let days := Int.ediv t 86400
  let sod := (Int.emod t 86400).toNat
  let c := civilFromDays days
  (c.1, c.2.1, c.2.2, sod / 3600, sod % 3600 / 60)

/-- One `%`-directive of `datetime.strftime`, restricted to the directives
the formatter's two time formats use (`%m`, `%d`, `%H`, `%M`); any other
directive is copied verbatim. -/
def strftimeDirective (t : Int × Nat × Nat × Nat × Nat) (c : Char) : List Char :=
  if c = 'm' then zfillChars 2 (natDigits t.2.1)
  else if c = 'd' then zfillChars 2 (natDigits t.2.2.1)
  else if c = 'H' then zfillChars 2 (natDigits t.2.2.2.1)
  else if c = 'M' then zfillChars 2 (natDigits t.2.2.2.2)
  else ['%', c]

/-- `datetime.strftime` over a format string given as a character list. -/
def strftimeAux (t : Int × Nat × Nat × Nat × Nat) : List Char → List Char
  | [] => []
  | c :: rest =>
    if c = '%' then
      match rest with
      | [] => ['%']
      | c2 :: rest2 => strftimeDirective t c2 ++ strftimeAux t rest2
    else c :: strftimeAux t rest

/-- `datetime.strftime(t, fmt)` over the directives used by the formatter. -/
def strftime (fmt : String) (t : Int × Nat × Nat × Nat × Nat) : String :=
  String.mk (strftimeAux t fmt.data)

/-- Python `needle in hay` on strings: substring test. -/
def strContains (hay needle : String) : Bool :=
  (List.range (hay.data.length + 1)).any fun i =>
    List.isPrefixOf needle.data (hay.data.drop i)


/-- The `[APRS]` configuration section (`APRS.__init__`, lines 13-21).
`output_filename` only feeds the file write and is omitted;
`include_position` and `report_luminosity` model the `int(...)` conversions
already applied. -/
structure Config where
  include_position : Int := 0
  symbol_table : String := "/"
  symbol_code : String := "_"
  comment : String := ""
  station_model : String
  report_luminosity : Int := 0

/-- The instance fields `APRS.__init__` leaves behind.  `wind_speed_marker`
is an `Option` because the `"accurite"` branch never assigns the attribute
(lines 29-31 assign `_wind_direction_marker` twice instead): `none` models
the attribute being absent, so that reading it raises `AttributeError`. -/
structure Profile where
  message_type : String
  time_format : String
  latitude : Option String
  longitude : Option String
  wind_direction_marker : String
  wind_speed_marker : Option String
  include_position : Int
  symbol_table : String
  symbol_code : String
  comment : String
  stationModel : String
  reportLuminosity : Int

/-- `APRS.__init__` (lines 14-47): profile resolution.  `latText` and
`lonText` stand for the output of the external collaborator
`weeutil.weeutil.latlon_string` applied to the station's coordinates.
On the accurite branch the source assigns `_wind_direction_marker = ''`
and then immediately `_wind_direction_marker = '/'`; the net effect is
marker `'/'` with `_wind_speed_marker` never assigned. -/
def mkProfile (conf : Config) (latText lonText : String) : Profile :=
  let base : Profile := {
    message_type := "_"
    time_format := "%m%d%H%M"
    latitude := none
    longitude := none
    wind_direction_marker :=
      if strContains conf.station_model "accurite" then "/" else "c"
    wind_speed_marker :=
      if strContains conf.station_model "accurite" then none else some "s"
    include_position := conf.include_position
    symbol_table := conf.symbol_table
    symbol_code := conf.symbol_code
    comment := conf.comment
    stationModel := conf.station_model
    reportLuminosity := conf.report_luminosity }
  if conf.include_position ≠ 0 then
    { base with
      message_type := "/"
      time_format := "%d%H%Mz"
      latitude := some latText
      longitude := some lonText
      wind_direction_marker := ""
      wind_speed_marker := some "/" }
  else base

/-- One archive record: a mapping from the recognized keys to optional
numeric values (`record.get(k) is not None` is `Option.isSome`). -/
structure Record where
  dateTime : Option Int := none
  windDir : Option Rat := none
  windSpeed : Option Rat := none
  windGust : Option Rat := none
  outTemp : Option Rat := none
  rainRate : Option Rat := none
  daily_rain : Option Rat := none
  dayRain : Option Rat := none
  outHumidity : Option Rat := none
  barometer : Option Rat := none
  luminosity : Option Rat := none

/-- Header (lines 56-64): on the accurite branch `data = [message_type, '']`
with the timestamp dropped; otherwise `record['dateTime']` (a `KeyError`
when absent) is formatted with `time_format` in UTC. -/
def headerFrags (p : Profile) (r : Record) : Except String (List String) :=
  if strContains p.stationModel "accurite" then
    Except.ok [p.message_type, ""]
  else
    match r.dateTime with
    | some t => Except.ok [p.message_type, strftime p.time_format (utcFromTimestamp t)]
    | none => Except.error "KeyError: dateTime"

/-- Position block (lines 66-70): latitude, symbol table, longitude, symbol
code, appended verbatim when `include_position` is truthy.  A profile built
with `include_position` truthy always carries rendered coordinates; if they
were `None`, `''.join` would raise a `TypeError`, modelled here as the
error case. -/
def positionFrags (p : Profile) : Except String (List String) :=
  if p.include_position ≠ 0 then
    match p.latitude, p.longitude with
    | some la, some lo => Except.ok [la, p.symbol_table, lo, p.symbol_code]
    | _, _ => Except.error "TypeError: NoneType in join"
  else Except.ok []

/-- Wind direction (lines 72-89): round first, clamp `≤ 0` to `360`
(APRS reserves `0` for unknown), emit `marker + '%03u'`; on absence emit
`marker + '...'`.  The `try` body cannot fail on a numeric value. -/
def windDirFrag (marker : String) (w : Option Rat) : String :=
  match w with
  | some v =>
    let wind_dir := pyRound v
    let wind_dir := if wind_dir ≤ 0 then 360 else wind_dir
    marker ++ fmtInt 3 wind_dir
  | none => marker ++ "..."

/-- Wind speed (lines 91-99): emit `marker + '%03.f'`, or `marker + '...'`
on absence.  When `_wind_speed_marker` was never assigned (accurite branch
without position), reading it raises `AttributeError`: inside the `try` the
body raises, and the `except` handler re-reads the same attribute and
raises again, so the error always propagates. -/
def windSpeedFrag (marker : Option String) (w : Option Rat) : Except String String :=
  match w, marker with
  | some v, some m => Except.ok (m ++ fmtF 3 v)
  | some _, none => Except.error "AttributeError: _wind_speed_marker"
  | none, some m => Except.ok (m ++ "...")
  | none, none => Except.error "AttributeError: _wind_speed_marker"

/-- Wind gust (lines 101-109): `'g%03.f'`, placeholder `'g...'` on absence
(or on a formatting failure, unreachable for numeric values). -/
def windGustFrag (w : Option Rat) : String :=
  match w with
  | some v => "g" ++ fmtF 3 v
  | none => "g..."

/-- Outdoor temperature (lines 111-118): `'t%03.f'`, placeholder `'t...'`
on absence (or on a formatting failure, unreachable for numeric values). -/
def outTempFrag (w : Option Rat) : String :=
  match w with
  | some v => "t" ++ fmtF 3 v
  | none => "t..."

/-- Rain rate (lines 120-125): `'r%03.f' % (rainRate * 100)` when present,
nothing (no placeholder) when absent. -/
def rainRateFrags (w : Option Rat) : List String :=
  match w with
  | some v => ["r" ++ fmtF 3 (v * 100)]
  | none => []

/-- Daily rain (lines 127-132): the presence check reads `daily_rain`, the
formatted value reads `dayRain`.  When `daily_rain` is present but `dayRain`
is absent, `record['dayRain']` raises `KeyError` inside the `try`, and the
error-logging line re-reads `record['dayRain']` and raises again, so the
error propagates. -/
def dailyRainFrags (r : Record) : Except String (List String) :=
  match r.daily_rain with
  | some _ =>
    match r.dayRain with
    | some v => Except.ok ["P" ++ fmtF 3 (v * 100)]
    | none => Except.error "KeyError: dayRain"
  | none => Except.ok []

/-- Outdoor humidity (lines 134-145): round first, clamp `≥ 100` to `0`
(APRS writes `00` for 100%), emit `'h%02u'`; nothing when absent. -/
def humidityFrags (w : Option Rat) : List String :=
  match w with
  | some v =>
    let humidity := pyRound v
    let humidity := if 100 ≤ humidity then 0 else humidity
    ["h" ++ fmtInt 2 humidity]
  | none => []

/-- Barometric pressure (lines 146-154): convert inHg to mbar through the
external collaborator `weewx.units.convert` (the parameter `convert`),
multiply by 10 and emit `'b%05.f'`; nothing when absent. -/
def barometerFrags (convert : Rat → Rat) (w : Option Rat) : List String :=
  match w with
  | some v => ["b" ++ fmtF 5 (convert v * 10)]
  | none => []

/-- Luminosity (lines 156-163): only when `_reportLuminosity == 1` and the
field is present, emit `'L%03.u'` (float truncated toward zero,
zero-padded to 3). -/
def luminosityFrags (p : Profile) (w : Option Rat) : List String :=
  if p.reportLuminosity = 1 then
    match w with
    | some v => ["L" ++ fmtInt 3 (pyTrunc v)]
    | none => []
  else []

/-- Comment (lines 165-166): appended verbatim when non-empty. -/
def commentFrags (p : Profile) : List String :=
  if p.comment ≠ "" then [p.comment] else []

/-- `APRS._handle_new_archive_record` (lines 51-168) up to the `''.join`:
the `data` list, in the source's append order.  The fallible steps are
sequenced in the order in which the source can raise: header `KeyError`,
wind-speed `AttributeError`, daily-rain `KeyError`, and the join-time
`TypeError` for an unrendered position. -/
def buildData (p : Profile) (convert : Rat → Rat) (r : Record) :
    Except String (List String) := do
  let hd ← headerFrags p r
  let ws ← windSpeedFrag p.wind_speed_marker r.windSpeed
  let dr ← dailyRainFrags r
  let pos ← positionFrags p
  pure (hd ++ pos ++
    [windDirFrag p.wind_direction_marker r.windDir, ws,
     windGustFrag r.windGust, outTempFrag r.outTemp] ++
    rainRateFrags r.rainRate ++ dr ++ humidityFrags r.outHumidity ++
    barometerFrags convert r.barometer ++ luminosityFrags p r.luminosity ++
    commentFrags p)

/-- The packet `wxdata = ''.join(data)` (line 168), or the exception that
aborted the handler. -/
def handleRecord (p : Profile) (convert : Rat → Rat) (r : Record) :
    Except String String :=
  Except.map String.join (buildData p convert r)

/-- The whole event handler, with the service state (the profile, the only
instance state the handler can reach) threaded explicitly: the handler
reads the profile and never reassigns any instance field, so the state
component is returned unchanged. -/
def handleEvent (p : Profile) (convert : Rat → Rat) (r : Record) :
    Profile × Except String String :=
  (p, handleRecord p convert r)

/-- Accurite profile from default configuration (no position). -/
def accuriteProfile : Profile :=
  mkProfile { station_model := "accurite" } "" ""

/-- Non-accurite profile from default configuration (no position). -/
def vantageProfile : Profile :=
  mkProfile { station_model := "vantage-pro" } "" ""

/-- The string contains no newline character. -/
def noNL (s : String) : Prop := '\n' ∉ s.data

/-! ## Sanity checks of the embedded primitives and the encoder -/

example : fmtF 3 (-5) = "-05" := by decide
example : fmtF 3 (⟨-2, 5, by decide, by decide⟩ : Rat) = "-00" := by decide
example : fmtF 3 (⟨1, 2, by decide, by decide⟩ : Rat) = "000" := by decide
example : fmtF 3 (⟨3, 2, by decide, by decide⟩ : Rat) = "002" := by decide
example : fmtF 3 (⟨5, 2, by decide, by decide⟩ : Rat) = "002" := by decide
example : fmtF 5 (-42) = "-0042" := by decide
example : fmtInt 3 360 = "360" := by decide
example : fmtInt 2 (-5) = "-5" := by decide
example : fmtInt 3 (pyTrunc (⟨57, 10, by decide, by decide⟩ : Rat)) = "005" := by decide
example : fmtInt 3 (pyTrunc (⟨-57, 10, by decide, by decide⟩ : Rat)) = "-05" := by decide
example : strftime "%m%d%H%M" (utcFromTimestamp 0) = "01010000" := by decide
example : strftime "%d%H%Mz" (utcFromTimestamp 0) = "010000z" := by decide
example : strftime "%m%d%H%M" (utcFromTimestamp 1672531200) = "01010000" := by decide
example : strContains "accurite-01036" "accurite" = true := by decide
example : strContains "vantage-pro" "accurite" = false := by decide

example :
    handleRecord vantageProfile id
      { dateTime := some 1672531200, windDir := some 0, windSpeed := some 5,
        outTemp := some 32, outHumidity := some 100 } =
      Except.ok "_01010000c360s005g...t032h00" := by decide
example :
    handleRecord accuriteProfile id {} =
      Except.error "AttributeError: _wind_speed_marker" := by decide
example :
    handleRecord vantageProfile id { dateTime := some 0, daily_rain := some 1 } =
      Except.error "KeyError: dayRain" := by decide

/-! ## Supporting lemmas -/

lemma except_bind_ok {α β : Type} (a : α) (f : α → Except String β) :
    (Except.ok a >>= f) = f a := rfl

lemma except_bind_error {α β : Type} (e : String) (f : α → Except String β) :
    ((Except.error e : Except String α) >>= f) = Except.error e := rfl

/-- Successful encodings are exactly the concatenations, in the source's
order, of the per-field fragments. -/
lemma buildData_ok_iff (p : Profile) (cv : Rat → Rat) (r : Record) (L : List String) :
    buildData p cv r = Except.ok L ↔
    ∃ hd ws dr pos,
      headerFrags p r = Except.ok hd ∧
      windSpeedFrag p.wind_speed_marker r.windSpeed = Except.ok ws ∧
      dailyRainFrags r = Except.ok dr ∧
      positionFrags p = Except.ok pos ∧
      L = hd ++ pos ++
          [windDirFrag p.wind_direction_marker r.windDir, ws,
           windGustFrag r.windGust, outTempFrag r.outTemp] ++
          rainRateFrags r.rainRate ++ dr ++ humidityFrags r.outHumidity ++
          barometerFrags cv r.barometer ++ luminosityFrags p r.luminosity ++
          commentFrags p := by
  unfold buildData
  cases h1 : headerFrags p r <;>
    cases h2 : windSpeedFrag p.wind_speed_marker r.windSpeed <;>
      cases h3 : dailyRainFrags r <;>
        cases h4 : positionFrags p <;>
          simp [except_bind_ok, except_bind_error, pure, Except.pure, eq_comm]

lemma digitChar_isDigit (k : Nat) (hk : k < 10) :
    (Char.ofNat (48 + k)).isDigit = true := by
  interval_cases k <;> decide

lemma natDigitsCore_all_digit (fuel : Nat) :
    ∀ n, n < fuel → ∀ c ∈ natDigitsCore fuel n, c.isDigit = true := by
  induction fuel with
  | zero => omega
  | succ fuel ih =>
    intro n hn c hc
    simp only [natDigitsCore] at hc
    by_cases h10 : n < 10
    · simp only [if_pos h10, List.mem_singleton] at hc
      subst hc
      exact digitChar_isDigit n h10
    · simp only [if_neg h10, List.mem_append, List.mem_singleton] at hc
      rcases hc with hc | hc
      · have hdiv : n / 10 < fuel := by
          have := Nat.div_lt_self (by omega : 0 < n) (by omega : 1 < 10)
          omega
        exact ih (n / 10) hdiv c hc
      · subst hc
        exact digitChar_isDigit (n % 10) (Nat.mod_lt n (by omega))

lemma natDigits_all_digit (n : Nat) : ∀ c ∈ natDigits n, c.isDigit = true :=
  natDigitsCore_all_digit (n + 1) n (by omega)

lemma natDigitsCore_length_le (fuel : Nat) :
    ∀ n k, n < fuel → n < 10 ^ k → 0 < k → (natDigitsCore fuel n).length ≤ k := by
  induction fuel with
  | zero => omega
  | succ fuel ih =>
    intro n k hn hk hk0
    simp only [natDigitsCore]
    by_cases h10 : n < 10
    · simp only [if_pos h10, List.length_singleton]
      omega
    · simp only [if_neg h10, List.length_append, List.length_singleton]
      obtain ⟨k', rfl⟩ : ∃ k', k = k' + 1 := ⟨k - 1, by omega⟩
      have hk' : 0 < k' := by
        rcases Nat.eq_zero_or_pos k' with h | h
        · subst h
          norm_num at hk
          omega
        · exact h
      have hdiv10 : n / 10 < 10 ^ k' := by
        rw [Nat.div_lt_iff_lt_mul (by omega : 0 < 10)]
        calc n < 10 ^ (k' + 1) := hk
        _ = 10 ^ k' * 10 := by rw [pow_succ]
      have hdivf : n / 10 < fuel := by
        have := Nat.div_lt_self (by omega : 0 < n) (by omega : 1 < 10)
        omega
      have := ih (n / 10) k' hdivf hdiv10 hk'
      omega

lemma natDigits_length_le (n k : Nat) (hk : 0 < k) (hn : n < 10 ^ k) :
    (natDigits n).length ≤ k :=
  natDigitsCore_length_le (n + 1) n k (by omega) hn hk

lemma zfillChars_length_of_le (w : Nat) (l : List Char) (h : l.length ≤ w) :
    (zfillChars w l).length = w := by
  simp only [zfillChars, List.length_append, List.length_replicate]
  omega

lemma zfillChars_all_digit (w : Nat) (l : List Char)
    (h : ∀ c ∈ l, c.isDigit = true) : ∀ c ∈ zfillChars w l, c.isDigit = true := by
  intro c hc
  simp only [zfillChars, List.mem_append, List.mem_replicate] at hc
  rcases hc with ⟨-, rfl⟩ | hc
  · decide
  · exact h c hc

lemma string_mk_length (l : List Char) : (String.mk l).length = l.length := rfl

lemma string_mk_data (l : List Char) : (String.mk l).data = l := rfl

lemma fmtInt_length (w : Nat) (n : Int) (h0 : 0 ≤ n) (hw : 0 < w)
    (h : n.natAbs < 10 ^ w) : (fmtInt w n).length = w := by
  unfold fmtInt
  rw [if_neg (by omega : ¬ n < 0), string_mk_length]
  exact zfillChars_length_of_le w _ (natDigits_length_le _ w hw h)

lemma fmtInt_all_digit (w : Nat) (n : Int) (h0 : 0 ≤ n) :
    ∀ c ∈ (fmtInt w n).data, c.isDigit = true := by
  unfold fmtInt
  rw [if_neg (by omega : ¬ n < 0), string_mk_data]
  exact zfillChars_all_digit w _ (natDigits_all_digit n.natAbs)

lemma pyRoundPair_nonneg (n d : Int) (hd : 0 < d) (hn : 0 ≤ n) :
    0 ≤ pyRoundPair n d := by
  unfold pyRoundPair
  dsimp only
  have hf : 0 ≤ n / d := Int.ediv_nonneg hn (le_of_lt hd)
  split_ifs <;> omega

lemma pyRoundPair_le_360 (n d : Int) (hd : 0 < d) (h : n ≤ 360 * d) :
    pyRoundPair n d ≤ 360 := by
  unfold pyRoundPair
  dsimp only
  have hf : n / d ≤ 360 := by
    calc n / d ≤ (360 * d) / d := Int.ediv_le_ediv hd h
    _ = 360 := Int.mul_ediv_cancel 360 (by omega)
  have he : d * (n / d) + n % d = n := Int.ediv_add_emod n d
  have hr0 : 0 ≤ n % d := Int.emod_nonneg n (by omega)
  have key : 0 < n % d → n / d + 1 ≤ 360 := by
    intro hrpos
    by_contra hcon
    have heq : n / d = 360 := by omega
    rw [heq] at he
    omega
  split_ifs with h1 h2 h3
  · exact hf
  · exact key (by omega)
  · exact hf
  · exact key (by omega)

lemma pyRound_nonneg (x : Rat) (hx : 0 ≤ x) : 0 ≤ pyRound x :=
  pyRoundPair_nonneg _ _ (by exact_mod_cast x.den_pos) (Rat.num_nonneg.mpr hx)

lemma pyRound_le_360 (x : Rat) (hx : x ≤ 360) : pyRound x ≤ 360 := by
  apply pyRoundPair_le_360 _ _ (by exact_mod_cast x.den_pos)
  rw [Rat.le_def] at hx
  simpa using hx

lemma rat_floor_eq_ediv (x : Rat) : ⌊x⌋ = x.num / (x.den : Int) := by
  conv_lhs => rw [← Rat.num_div_den x]
  exact Rat.floor_intCast_div_natCast x.num x.den

/-- The executable `pyRound` agrees with the value-level round half to even. -/
lemma pyRound_eq_valRound (x : Rat) : pyRound x = valRound x := by
  unfold pyRound pyRoundPair valRound
  dsimp only
  have hd : (0 : Rat) < (x.den : Rat) := by exact_mod_cast x.den_pos
  have hfr : Int.fract x =
      ((x.num % (x.den : Int) : Int) : Rat) / (x.den : Rat) := by
    conv_lhs => rw [← Rat.num_div_den x]
    exact Int.fract_div_intCast_eq_div_intCast_mod
  have h1 : (Int.fract x < 1 / 2) ↔
      (2 * (x.num % (x.den : Int)) < (x.den : Int)) := by
    rw [hfr, div_lt_div_iff₀ hd (by norm_num : (0 : Rat) < 2), one_mul, mul_comm]
    exact_mod_cast Iff.rfl
  have h2 : (1 / 2 < Int.fract x) ↔
      ((x.den : Int) < 2 * (x.num % (x.den : Int))) := by
    rw [hfr, div_lt_div_iff₀ (by norm_num : (0 : Rat) < 2) hd, one_mul, mul_comm]
    exact_mod_cast Iff.rfl
  simp only [rat_floor_eq_ediv, h1, h2]
  rfl

lemma int_tdiv_eq_ediv_of_nonneg (a b : Int) (ha : 0 ≤ a) (hb : 0 ≤ b) :
    Int.tdiv a b = a / b := by
  obtain ⟨n, rfl⟩ := Int.eq_ofNat_of_zero_le ha
  obtain ⟨m, rfl⟩ := Int.eq_ofNat_of_zero_le hb
  rfl

/-- For a nonnegative value Python truncation is the floor. -/
lemma pyTrunc_eq_floor_of_nonneg (x : Rat) (hx : 0 ≤ x) : pyTrunc x = ⌊x⌋ := by
  unfold pyTrunc
  rw [rat_floor_eq_ediv]
  exact int_tdiv_eq_ediv_of_nonneg _ _ (Rat.num_nonneg.mpr hx) (by positivity)

/-- For a nonpositive value Python truncation is the ceiling. -/
lemma pyTrunc_eq_ceil_of_nonpos (x : Rat) (hx : x ≤ 0) : pyTrunc x = ⌈x⌉ := by
  unfold pyTrunc
  have hcx : ⌈x⌉ = -⌊-x⌋ := by
    rw [← Int.ceil_neg (a := -x), neg_neg]
  rw [hcx, rat_floor_eq_ediv]
  have hnum : (-x).num = -x.num := rfl
  have hden : (-x).den = x.den := rfl
  rw [hnum, hden, ← int_tdiv_eq_ediv_of_nonneg (-x.num) (x.den : Int)
    (by simpa using Rat.num_nonpos.mpr hx) (by positivity)]
  rw [Int.neg_tdiv, neg_neg]

lemma noNL_append (s t : String) (hs : noNL s) (ht : noNL t) : noNL (s ++ t) := by
  unfold noNL at *
  rw [String.data_append]
  simp only [List.mem_append]
  tauto

lemma noNL_natDigits (n : Nat) : '\n' ∉ natDigits n := by
  intro h
  have := natDigits_all_digit n '\n' h
  exact absurd this (by decide)

lemma noNL_zfillChars (w : Nat) (l : List Char) (h : '\n' ∉ l) :
    '\n' ∉ zfillChars w l := by
  intro hc
  simp only [zfillChars, List.mem_append, List.mem_replicate] at hc
  rcases hc with ⟨-, he⟩ | hc
  · exact absurd he (by decide)
  · exact h hc

lemma noNL_fmtInt (w : Nat) (n : Int) : noNL (fmtInt w n) := by
  unfold noNL fmtInt
  split
  · rw [string_mk_data]
    intro hc
    rcases List.mem_cons.mp hc with he | hc
    · exact absurd he (by decide)
    · exact noNL_zfillChars _ _ (noNL_natDigits _) hc
  · rw [string_mk_data]
    exact noNL_zfillChars _ _ (noNL_natDigits _)

lemma noNL_fmtF (w : Nat) (x : Rat) : noNL (fmtF w x) := by
  unfold noNL fmtF
  dsimp only
  split
  · rw [string_mk_data]
    intro hc
    rcases List.mem_cons.mp hc with he | hc
    · exact absurd he (by decide)
    · exact noNL_zfillChars _ _ (noNL_natDigits _) hc
  · exact noNL_fmtInt w _

lemma noNL_strftimeDirective (t : Int × Nat × Nat × Nat × Nat) (c : Char)
    (hc : c ≠ '\n') : '\n' ∉ strftimeDirective t c := by
  unfold strftimeDirective
  split_ifs
  any_goals exact noNL_zfillChars _ _ (noNL_natDigits _)
  intro hm
  rcases List.mem_cons.mp hm with he | hm
  · exact absurd he (by decide)
  · rcases List.mem_singleton.mp hm with rfl
    exact hc rfl

lemma strftimeAux_noNL (t : Int × Nat × Nat × Nat × Nat) :
    ∀ (n : Nat) (l : List Char), l.length ≤ n → (∀ c ∈ l, c ≠ '\n') →
      '\n' ∉ strftimeAux t l := by
  intro n
  induction n with
  | zero =>
    intro l hl _
    have : l = [] := List.eq_nil_of_length_eq_zero (by omega)
    subst this
    simp [strftimeAux]
  | succ n ih =>
    intro l hl hc
    match l with
    | [] => simp [strftimeAux]
    | c :: rest =>
      rw [strftimeAux.eq_def]
      dsimp only
      by_cases hp : c = '%'
      · rw [if_pos hp]
        match rest with
        | [] => dsimp only; decide
        | c2 :: rest2 =>
          intro hm
          rcases List.mem_append.mp hm with hm | hm
          · exact noNL_strftimeDirective t c2
              (hc c2 (by simp)) hm
          · exact ih rest2 (by simp at hl; omega)
              (fun c hcm => hc c (by simp [hcm])) hm
      · rw [if_neg hp]
        intro hm
        rcases List.mem_cons.mp hm with he | hm
        · exact hc c (by simp) he.symm
        · exact ih rest (by simp at hl; omega)
            (fun c hcm => hc c (by simp [hcm])) hm

lemma noNL_strftime (fmt : String) (t : Int × Nat × Nat × Nat × Nat)
    (h : ∀ c ∈ fmt.data, c ≠ '\n') : noNL (strftime fmt t) := by
  unfold noNL strftime
  rw [string_mk_data]
  exact strftimeAux_noNL t fmt.data.length fmt.data (le_refl _) h

lemma noNL_join (l : List String) (h : ∀ s ∈ l, noNL s) : noNL (String.join l) := by
  unfold String.join
  suffices hgen : ∀ (acc : String), noNL acc → noNL (List.foldl (fun r s => r ++ s) acc l) by
    exact hgen "" (by unfold noNL; decide)
  induction l with
  | nil => intro acc hacc; exact hacc
  | cons a l ih =>
    intro acc hacc
    simp only [List.foldl_cons]
    exact ih (fun s hs => h s (by simp [hs]))
      (acc ++ a) (noNL_append acc a hacc (h a (by simp)))

lemma mkProfile_stationModel (conf : Config) (lat lon : String) :
    (mkProfile conf lat lon).stationModel = conf.station_model := by
  unfold mkProfile
  dsimp only
  split <;> rfl

lemma mkProfile_comment (conf : Config) (lat lon : String) :
    (mkProfile conf lat lon).comment = conf.comment := by
  unfold mkProfile
  dsimp only
  split <;> rfl

lemma mkProfile_symbol_table (conf : Config) (lat lon : String) :
    (mkProfile conf lat lon).symbol_table = conf.symbol_table := by
  unfold mkProfile
  dsimp only
  split <;> rfl

lemma mkProfile_symbol_code (conf : Config) (lat lon : String) :
    (mkProfile conf lat lon).symbol_code = conf.symbol_code := by
  unfold mkProfile
  dsimp only
  split <;> rfl

lemma mkProfile_reportLuminosity (conf : Config) (lat lon : String) :
    (mkProfile conf lat lon).reportLuminosity = conf.report_luminosity := by
  unfold mkProfile
  dsimp only
  split <;> rfl

lemma mkProfile_message_type (conf : Config) (lat lon : String) :
    (mkProfile conf lat lon).message_type = "/" ∨
    (mkProfile conf lat lon).message_type = "_" := by
  unfold mkProfile
  dsimp only
  split
  · exact Or.inl rfl
  · exact Or.inr rfl

lemma mkProfile_time_format (conf : Config) (lat lon : String) :
    (mkProfile conf lat lon).time_format = "%d%H%Mz" ∨
    (mkProfile conf lat lon).time_format = "%m%d%H%M" := by
  unfold mkProfile
  dsimp only
  split
  · exact Or.inl rfl
  · exact Or.inr rfl

lemma mkProfile_wind_direction_marker (conf : Config) (lat lon : String) :
    (mkProfile conf lat lon).wind_direction_marker = "" ∨
    (mkProfile conf lat lon).wind_direction_marker = "/" ∨
    (mkProfile conf lat lon).wind_direction_marker = "c" := by
  unfold mkProfile
  dsimp only
  split
  · exact Or.inl rfl
  · split
    · exact Or.inr (Or.inl rfl)
    · exact Or.inr (Or.inr rfl)

lemma mkProfile_wind_speed_marker (conf : Config) (lat lon : String) :
    (mkProfile conf lat lon).wind_speed_marker = some "/" ∨
    (mkProfile conf lat lon).wind_speed_marker = none ∨
    (mkProfile conf lat lon).wind_speed_marker = some "s" := by
  unfold mkProfile
  dsimp only
  split
  · exact Or.inl rfl
  · split
    · exact Or.inr (Or.inl rfl)
    · exact Or.inr (Or.inr rfl)

lemma mkProfile_latitude (conf : Config) (lat lon : String) :
    (mkProfile conf lat lon).latitude =
      (if conf.include_position ≠ 0 then some lat else none) := by
  unfold mkProfile
  dsimp only
  split <;> rfl

lemma mkProfile_longitude (conf : Config) (lat lon : String) :
    (mkProfile conf lat lon).longitude =
      (if conf.include_position ≠ 0 then some lon else none) := by
  unfold mkProfile
  dsimp only
  split <;> rfl

lemma fmtInt_length3 (n : Int) (h0 : 0 ≤ n) (h : n < 1000) :
    (fmtInt 3 n).length = 3 := by
  have hh : n.natAbs < 1000 := by omega
  exact fmtInt_length 3 n h0 (by norm_num)
    ((by norm_num : (1000 : Nat) = 10 ^ 3) ▸ hh)

lemma fmtInt_length2 (n : Int) (h0 : 0 ≤ n) (h : n < 100) :
    (fmtInt 2 n).length = 2 := by
  have hh : n.natAbs < 100 := by omega
  exact fmtInt_length 2 n h0 (by norm_num)
    ((by norm_num : (100 : Nat) = 10 ^ 2) ▸ hh)

lemma fmtF_eq_fmtInt_of_nonneg (w : Nat) (x : Rat) (hx : 0 ≤ x) :
    fmtF w x = fmtInt w (pyRound x) := by
  unfold fmtF
  dsimp only
  rw [if_neg]
  push_neg
  constructor
  · have := pyRound_nonneg x hx
    omega
  · intro _
    exact hx

lemma noNL_windDirFrag (m : String) (w : Option Rat) (hm : noNL m) :
    noNL (windDirFrag m w) := by
  unfold windDirFrag
  cases w with
  | none => exact noNL_append m "..." hm (by unfold noNL; decide)
  | some v => exact noNL_append m _ hm (noNL_fmtInt 3 _)

lemma noNL_windGustFrag (w : Option Rat) : noNL (windGustFrag w) := by
  unfold windGustFrag
  cases w with
  | none => unfold noNL; decide
  | some v => exact noNL_append "g" _ (by unfold noNL; decide) (noNL_fmtF 3 v)

lemma noNL_outTempFrag (w : Option Rat) : noNL (outTempFrag w) := by
  unfold outTempFrag
  cases w with
  | none => unfold noNL; decide
  | some v => exact noNL_append "t" _ (by unfold noNL; decide) (noNL_fmtF 3 v)

lemma noNL_rainRateFrags (w : Option Rat) : ∀ f ∈ rainRateFrags w, noNL f := by
  unfold rainRateFrags
  cases w with
  | none => simp
  | some v =>
    intro f hf
    rw [List.mem_singleton.mp hf]
    exact noNL_append "r" _ (by unfold noNL; decide) (noNL_fmtF 3 _)

lemma noNL_humidityFrags (w : Option Rat) : ∀ f ∈ humidityFrags w, noNL f := by
  unfold humidityFrags
  cases w with
  | none => simp
  | some v =>
    intro f hf
    rw [List.mem_singleton.mp hf]
    exact noNL_append "h" _ (by unfold noNL; decide) (noNL_fmtInt 2 _)

lemma noNL_barometerFrags (cv : Rat → Rat) (w : Option Rat) :
    ∀ f ∈ barometerFrags cv w, noNL f := by
  unfold barometerFrags
  cases w with
  | none => simp
  | some v =>
    intro f hf
    rw [List.mem_singleton.mp hf]
    exact noNL_append "b" _ (by unfold noNL; decide) (noNL_fmtF 5 _)

lemma noNL_luminosityFrags (p : Profile) (w : Option Rat) :
    ∀ f ∈ luminosityFrags p w, noNL f := by
  unfold luminosityFrags
  split
  · cases w with
    | none => simp
    | some v =>
      intro f hf
      rw [List.mem_singleton.mp hf]
      exact noNL_append "L" _ (by unfold noNL; decide) (noNL_fmtInt 3 _)
  · simp

lemma noNL_commentFrags (p : Profile) (hc : noNL p.comment) :
    ∀ f ∈ commentFrags p, noNL f := by
  unfold commentFrags
  split
  · intro f hf
    rw [List.mem_singleton.mp hf]
    exact hc
  · simp

lemma noNL_headerFrags (p : Profile) (r : Record) (hd : List String)
    (hmt : noNL p.message_type)
    (htf : p.time_format = "%d%H%Mz" ∨ p.time_format = "%m%d%H%M")
    (hhd : headerFrags p r = Except.ok hd) : ∀ f ∈ hd, noNL f := by
  unfold headerFrags at hhd
  split at hhd
  · have hp := Except.ok.inj hhd
    subst hp
    intro f hf
    rcases List.mem_cons.mp hf with rfl | hf
    · exact hmt
    · rw [List.mem_singleton.mp hf]
      unfold noNL
      decide
  · cases hdt : r.dateTime with
    | none => rw [hdt] at hhd; exact absurd hhd (by simp)
    | some t =>
      rw [hdt] at hhd
      have hp := Except.ok.inj hhd
      subst hp
      intro f hf
      rcases List.mem_cons.mp hf with rfl | hf
      · exact hmt
      · rw [List.mem_singleton.mp hf]
        refine noNL_strftime _ _ ?_
        rcases htf with htf | htf <;> rw [htf] <;> decide

lemma noNL_windSpeedFrag (m : Option String) (w : Option Rat) (ws : String)
    (hm : ∀ s, m = some s → noNL s)
    (hws : windSpeedFrag m w = Except.ok ws) : noNL ws := by
  unfold windSpeedFrag at hws
  cases w <;> cases hmm : m <;> rw [hmm] at hws
  · exact absurd hws (by simp)
  · have hp := Except.ok.inj hws
    subst hp
    exact noNL_append _ "..." (hm _ hmm) (by unfold noNL; decide)
  · exact absurd hws (by simp)
  · have hp := Except.ok.inj hws
    subst hp
    exact noNL_append _ _ (hm _ hmm) (noNL_fmtF 3 _)

lemma noNL_dailyRainFrags (r : Record) (dr : List String)
    (hdr : dailyRainFrags r = Except.ok dr) : ∀ f ∈ dr, noNL f := by
  unfold dailyRainFrags at hdr
  cases hdaily : r.daily_rain with
  | none =>
    rw [hdaily] at hdr
    have hp := Except.ok.inj hdr
    subst hp
    simp
  | some x =>
    rw [hdaily] at hdr
    cases hday : r.dayRain with
    | none => rw [hday] at hdr; exact absurd hdr (by simp)
    | some v =>
      rw [hday] at hdr
      have hp := Except.ok.inj hdr
      subst hp
      intro f hf
      rw [List.mem_singleton.mp hf]
      exact noNL_append "P" _ (by unfold noNL; decide) (noNL_fmtF 3 _)

lemma noNL_positionFrags (p : Profile) (pos : List String)
    (hla : ∀ s, p.latitude = some s → noNL s)
    (hlo : ∀ s, p.longitude = some s → noNL s)
    (hst : noNL p.symbol_table) (hsc : noNL p.symbol_code)
    (hpos : positionFrags p = Except.ok pos) : ∀ f ∈ pos, noNL f := by
  unfold positionFrags at hpos
  split at hpos
  · rcases ha : p.latitude with _ | la <;>
      rcases hb : p.longitude with _ | lo <;>
        rw [ha, hb] at hpos
    · exact absurd hpos (by simp)
    · exact absurd hpos (by simp)
    · exact absurd hpos (by simp)
    · have hp := Except.ok.inj hpos
      subst hp
      intro f hf
      simp only [List.mem_cons, List.not_mem_nil, or_false] at hf
      rcases hf with rfl | rfl | rfl | rfl
      · exact hla _ ha
      · exact hst
      · exact hlo _ hb
      · exact hsc
  · have hp := Except.ok.inj hpos
    subst hp
    simp

/-! ## Claims -/

/-- **C1.** The claim (and the spec's encoder contract) says the encoding
operation always returns a packet and never raises, in particular for an
accurite-model profile without position when `windSpeed` is absent, and when
`daily_rain` is present but `dayRain` is absent.  The code violates both: on
the accurite branch `_wind_speed_marker` is never assigned, so the handler
raises `AttributeError` (the placeholder line reads the attribute outside
any `try`, and the `except` handler of the formatted line re-reads it); and
with `daily_rain` present but `dayRain` absent the `try` body raises
`KeyError` and the error-logging line re-reads `record['dayRain']` and
raises again.  This theorem evaluates the encoder at both failing inputs. -/
theorem C1_encoder_raises_on_failing_inputs :
    handleRecord accuriteProfile id {} =
      Except.error "AttributeError: _wind_speed_marker" ∧
    handleRecord vantageProfile id { dateTime := some 0, daily_rain := some 1 } =
      Except.error "KeyError: dayRain" :=
  ⟨by decide, by decide⟩

/-- **C2 counterexample.** The claim says the daily-rain fragment is
appended if and only if `daily_rain` is present.  At the concrete record
with `daily_rain` present and `dayRain` absent, the encoder raises
(`KeyError` from the error-logging line) and produces no packet at all, so
no fragment is appended although the presence check passes. -/
theorem C2_counterexample :
    (Record.daily_rain
        { dateTime := some 0, daily_rain := some 1 }).isSome = true ∧
    buildData vantageProfile id { dateTime := some 0, daily_rain := some 1 } =
      Except.error "KeyError: dayRain" :=
  ⟨by decide, by decide⟩

/-- **C2 amended.** On every *successful* encoding: no fragment and no
placeholder is emitted when `daily_rain` is absent; success forces `dayRain`
to be present whenever `daily_rain` is (otherwise the encoder raises and no
packet exists); and when both keys are present the appended fragment is
`'P'` followed by `dayRain × 100` rounded (half to even) and zero-padded to
a minimum width of 3 — exactly 3 digits when the value is nonnegative and
rounds below 1000. -/
theorem C2_daily_rain_amended (p : Profile) (cv : Rat → Rat) (r : Record)
    (L : List String) (h : buildData p cv r = Except.ok L) :
    (r.daily_rain = none → dailyRainFrags r = Except.ok []) ∧
    (r.daily_rain.isSome = true → r.dayRain.isSome = true) ∧
    (∀ x v, r.daily_rain = some x → r.dayRain = some v →
      dailyRainFrags r = Except.ok ["P" ++ fmtF 3 (v * 100)] ∧
      ("P" ++ fmtF 3 (v * 100)) ∈ L ∧
      (0 ≤ v → pyRound (v * 100) < 1000 →
        (fmtF 3 (v * 100)).length = 3 ∧
        ∀ c ∈ (fmtF 3 (v * 100)).data, c.isDigit = true)) := by
  rw [buildData_ok_iff] at h
  obtain ⟨hd, ws, dr, pos, hhd, hws, hdr, hpos, rfl⟩ := h
  refine ⟨?_, ?_, ?_⟩
  · intro hnone
    unfold dailyRainFrags
    rw [hnone]
  · intro hsome
    cases hdaily : r.daily_rain with
    | none => rw [hdaily] at hsome; simp at hsome
    | some x =>
      cases hday : r.dayRain with
      | some v => simp
      | none =>
        unfold dailyRainFrags at hdr
        rw [hdaily, hday] at hdr
        exact absurd hdr (by simp)
  · intro x v hdaily hday
    have hfrag : dailyRainFrags r = Except.ok ["P" ++ fmtF 3 (v * 100)] := by
      unfold dailyRainFrags
      rw [hdaily, hday]
    refine ⟨hfrag, ?_, ?_⟩
    · have : dr = ["P" ++ fmtF 3 (v * 100)] := by
        rw [hfrag] at hdr
        exact (Except.ok.inj hdr).symm
      subst this
      simp
    · intro hv hround
      have hnn : (0 : Rat) ≤ v * 100 := mul_nonneg hv (by norm_num)
      rw [fmtF_eq_fmtInt_of_nonneg 3 _ hnn]
      have h0 : 0 ≤ pyRound (v * 100) := pyRound_nonneg _ hnn
      exact ⟨fmtInt_length3 _ h0 hround, fmtInt_all_digit 3 _ h0⟩

/-- **C2 amended, witness.** Concrete successful encoding with
`daily_rain = dayRain = 0`: the fragment `'P' ++ '%03.f' % (0 * 100)` is
appended and is three digits. -/
theorem C2_daily_rain_amended_witness :
    dailyRainFrags
        { dateTime := some 0, daily_rain := some 0, dayRain := some 0 } =
      Except.ok ["P" ++ fmtF 3 ((0 : Rat) * 100)] ∧
    ("P" ++ fmtF 3 ((0 : Rat) * 100)) ∈
      ["_", "01010000", "c...", "s...", "g...", "t...",
       "P" ++ fmtF 3 ((0 : Rat) * 100)] ∧
    (fmtF 3 ((0 : Rat) * 100)).length = 3 := by
  have happ := C2_daily_rain_amended vantageProfile id
    { dateTime := some 0, daily_rain := some 0, dayRain := some 0 }
    ["_", "01010000", "c...", "s...", "g...", "t...",
     "P" ++ fmtF 3 ((0 : Rat) * 100)] rfl
  obtain ⟨hfrag, hmem, hlen⟩ := happ.2.2 0 0 rfl rfl
  exact ⟨hfrag, hmem,
    (hlen (by decide) (by rw [zero_mul]; decide)).1⟩

/-- **C3.** When `windDir` is present (with the documented domain bound
`windDir ≤ 360`; small negatives allowed), the emitted fragment is the
profile's wind-direction marker followed by exactly three decimal digits,
and a rounded value `≤ 0` is emitted as `360`, never `000`: the emitted
degree value is always in `[1, 360]`. -/
theorem C3_wind_direction_clamp (p : Profile) (cv : Rat → Rat) (r : Record)
    (L : List String) (d : Rat) (h : buildData p cv r = Except.ok L)
    (hd : r.windDir = some d) (hdom : d ≤ 360) :
    ∃ wd : Int,
      wd = (if pyRound d ≤ 0 then 360 else pyRound d) ∧
      windDirFrag p.wind_direction_marker r.windDir =
        p.wind_direction_marker ++ fmtInt 3 wd ∧
      (p.wind_direction_marker ++ fmtInt 3 wd) ∈ L ∧
      (fmtInt 3 wd).length = 3 ∧
      (∀ c ∈ (fmtInt 3 wd).data, c.isDigit = true) ∧
      1 ≤ wd ∧ wd ≤ 360 ∧
      (pyRound d ≤ 0 → wd = 360) := by
  have hbounds : 1 ≤ (if pyRound d ≤ 0 then 360 else pyRound d) ∧
      (if pyRound d ≤ 0 then 360 else pyRound d) ≤ 360 := by
    have hle := pyRound_le_360 d hdom
    split_ifs with hcl
    · omega
    · omega
  refine ⟨_, rfl, ?_, ?_, ?_, ?_, hbounds.1, hbounds.2, ?_⟩
  · unfold windDirFrag
    rw [hd]
  · rw [buildData_ok_iff] at h
    obtain ⟨hd', ws, dr, pos, hhd, hws, hdr, hpos, rfl⟩ := h
    have : windDirFrag p.wind_direction_marker r.windDir =
        p.wind_direction_marker ++
          fmtInt 3 (if pyRound d ≤ 0 then 360 else pyRound d) := by
      unfold windDirFrag
      rw [hd]
    rw [← this]
    simp
  · exact fmtInt_length3 _ (by omega) (by omega)
  · exact fmtInt_all_digit 3 _ (by omega)
  · intro hcl
    rw [if_pos hcl]

/-- **C3 witness.** `windDir = -2` rounds to `-2 ≤ 0` and is emitted as
`c360` in the concrete packet. -/
theorem C3_wind_direction_clamp_witness :
    ∃ wd : Int,
      wd = (if pyRound (-2 : Rat) ≤ 0 then 360 else pyRound (-2 : Rat)) ∧
      windDirFrag vantageProfile.wind_direction_marker
          (Record.windDir { dateTime := some 0, windDir := some (-2) }) =
        vantageProfile.wind_direction_marker ++ fmtInt 3 wd ∧
      (vantageProfile.wind_direction_marker ++ fmtInt 3 wd) ∈
        ["_", "01010000", "c360", "s...", "g...", "t..."] ∧
      (fmtInt 3 wd).length = 3 ∧
      (∀ c ∈ (fmtInt 3 wd).data, c.isDigit = true) ∧
      1 ≤ wd ∧ wd ≤ 360 ∧
      (pyRound (-2 : Rat) ≤ 0 → wd = 360) :=
  C3_wind_direction_clamp vantageProfile id
    { dateTime := some 0, windDir := some (-2) }
    ["_", "01010000", "c360", "s...", "g...", "t..."] (-2)
    (by decide) rfl (by decide)

/-- **C4.** When `outHumidity` is present (in the documented domain
`0 ≤ outHumidity`), the emitted fragment is `'h'` followed by exactly two
decimal digits, a rounded value `≥ 100` is emitted as `h00`, and no
humidity fragment at all is emitted when the field is absent. -/
theorem C4_humidity_clamp (p : Profile) (cv : Rat → Rat) (r : Record)
    (L : List String) (h : buildData p cv r = Except.ok L) :
    (r.outHumidity = none → humidityFrags r.outHumidity = []) ∧
    (∀ v, r.outHumidity = some v → 0 ≤ v →
      ∃ hv : Int,
        hv = (if 100 ≤ pyRound v then 0 else pyRound v) ∧
        humidityFrags r.outHumidity = ["h" ++ fmtInt 2 hv] ∧
        ("h" ++ fmtInt 2 hv) ∈ L ∧
        (fmtInt 2 hv).length = 2 ∧
        (∀ c ∈ (fmtInt 2 hv).data, c.isDigit = true) ∧
        (100 ≤ pyRound v → "h" ++ fmtInt 2 hv = "h00")) := by
  rw [buildData_ok_iff] at h
  obtain ⟨hd, ws, dr, pos, hhd, hws, hdr, hpos, rfl⟩ := h
  constructor
  · intro hnone
    unfold humidityFrags
    rw [hnone]
  · intro v hv hnn
    have hb : 0 ≤ (if 100 ≤ pyRound v then 0 else pyRound v) ∧
        (if 100 ≤ pyRound v then 0 else pyRound v) < 100 := by
      have := pyRound_nonneg v hnn
      split_ifs <;> omega
    have hfrag : humidityFrags r.outHumidity =
        ["h" ++ fmtInt 2 (if 100 ≤ pyRound v then 0 else pyRound v)] := by
      unfold humidityFrags
      rw [hv]
    refine ⟨_, rfl, hfrag, ?_, ?_, ?_, ?_⟩
    · have hmem : "h" ++ fmtInt 2 (if 100 ≤ pyRound v then 0 else pyRound v) ∈
          humidityFrags r.outHumidity := by
        rw [hfrag]
        simp
      simp only [List.mem_append]
      tauto
    · exact fmtInt_length2 _ hb.1 hb.2
    · exact fmtInt_all_digit 2 _ hb.1
    · intro hcl
      rw [if_pos hcl]
      decide

/-- **C4 witness.** `outHumidity = 100` rounds to `100 ≥ 100` and is
emitted as `h00` in the concrete packet. -/
theorem C4_humidity_clamp_witness :
    ∃ hv : Int,
      hv = (if 100 ≤ pyRound (100 : Rat) then 0 else pyRound (100 : Rat)) ∧
      humidityFrags
          (Record.outHumidity { dateTime := some 0, outHumidity := some 100 }) =
        ["h" ++ fmtInt 2 hv] ∧
      ("h" ++ fmtInt 2 hv) ∈
        ["_", "01010000", "c...", "s...", "g...", "t...", "h00"] ∧
      (fmtInt 2 hv).length = 2 ∧
      (∀ c ∈ (fmtInt 2 hv).data, c.isDigit = true) ∧
      (100 ≤ pyRound (100 : Rat) → "h" ++ fmtInt 2 hv = "h00") :=
  (C4_humidity_clamp vantageProfile id
      { dateTime := some 0, outHumidity := some 100 }
      ["_", "01010000", "c...", "s...", "g...", "t...", "h00"]
      (by decide)).2 100 rfl (by decide)

/-- **C5 counterexample.** The claim says the sign consumes no pad width, so
a negative temperature of magnitude below 100 would still show three digits
after the minus sign (`t-005` for `-5`).  Python's `'%03.f'` pads to a
*total* field width of 3 including the sign: the packet for `outTemp = -5`
contains `t-05` (two digits after the minus) and does not contain `t-005`. -/
theorem C5_counterexample :
    handleRecord vantageProfile id { dateTime := some 0, outTemp := some (-5) } =
      Except.ok "_01010000c...s...g...t-05" ∧
    strContains "_01010000c...s...g...t-05" "t-05" = true ∧
    strContains "_01010000c...s...g...t-05" "t-005" = false :=
  ⟨by decide, by decide, by decide⟩

/-- **C5 amended.** When `outTemp` is present the emitted fragment is `'t'`
followed by `'%03.f'` of the value: rounded half to even and zero-padded to
a *minimum total field width* of 3 in which the sign participates — a
negative value rounding into `[-99, -1]` renders as a minus sign followed
by exactly two digits (total width 3), and a nonnegative value rounding
below 1000 renders as exactly three digits. -/
theorem C5_temperature_amended (p : Profile) (cv : Rat → Rat) (r : Record)
    (L : List String) (v : Rat) (h : buildData p cv r = Except.ok L)
    (hv : r.outTemp = some v) :
    outTempFrag r.outTemp = "t" ++ fmtF 3 v ∧
    ("t" ++ fmtF 3 v) ∈ L ∧
    (-99 ≤ pyRound v → pyRound v ≤ -1 →
      ∃ l, (fmtF 3 v).data = '-' :: l ∧ l.length = 2 ∧
        (fmtF 3 v).length = 3) ∧
    (0 ≤ v → pyRound v ≤ 999 →
      (fmtF 3 v).length = 3 ∧ ∀ c ∈ (fmtF 3 v).data, c.isDigit = true) := by
  rw [buildData_ok_iff] at h
  obtain ⟨hd, ws, dr, pos, hhd, hws, hdr, hpos, rfl⟩ := h
  have hfrag : outTempFrag r.outTemp = "t" ++ fmtF 3 v := by
    unfold outTempFrag
    rw [hv]
  refine ⟨hfrag, ?_, ?_, ?_⟩
  · have hmem : ("t" ++ fmtF 3 v) ∈
        [windDirFrag p.wind_direction_marker r.windDir, ws,
         windGustFrag r.windGust, outTempFrag r.outTemp] := by
      rw [hfrag]
      simp
    simp only [List.mem_append]
    tauto
  · intro hlo hhi
    have hneg : pyRound v < 0 := by omega
    have hdl : (natDigits (pyRound v).natAbs).length ≤ 2 :=
      natDigits_length_le _ 2 (by norm_num)
        ((by norm_num : (100 : Nat) = 10 ^ 2) ▸ (by omega))
    unfold fmtF
    dsimp only
    rw [if_pos (Or.inl hneg), string_mk_data]
    refine ⟨zfillChars 2 (natDigits (pyRound v).natAbs), rfl, ?_, ?_⟩
    · exact zfillChars_length_of_le 2 _ hdl
    · rw [string_mk_length, List.length_cons,
        zfillChars_length_of_le 2 _ hdl]
  · intro hnn hhi
    rw [fmtF_eq_fmtInt_of_nonneg 3 v hnn]
    have h0 : 0 ≤ pyRound v := pyRound_nonneg v hnn
    exact ⟨fmtInt_length3 _ h0 (by omega), fmtInt_all_digit 3 _ h0⟩

/-- **C5 amended, witness.** At `outTemp = -5` the fragment is `t` plus a
minus sign and exactly two digits, total width 3. -/
theorem C5_temperature_amended_witness :
    outTempFrag (Record.outTemp { dateTime := some 0, outTemp := some (-5) }) =
      "t" ++ fmtF 3 (-5 : Rat) ∧
    ("t" ++ fmtF 3 (-5 : Rat)) ∈
      ["_", "01010000", "c...", "s...", "g...", "t-05"] ∧
    ∃ l, (fmtF 3 (-5 : Rat)).data = '-' :: l ∧ l.length = 2 ∧
      (fmtF 3 (-5 : Rat)).length = 3 := by
  have happ := C5_temperature_amended vantageProfile id
    { dateTime := some 0, outTemp := some (-5) }
    ["_", "01010000", "c...", "s...", "g...", "t-05"] (-5)
    (by decide) rfl
  exact ⟨happ.1, happ.2.1, happ.2.2.1 (by decide) (by decide)⟩

/-- **C6.** For every accurite-model profile the header is exactly the
message type followed by an empty timestamp token, and the whole packet is
independent of the record's `dateTime`; for every other profile the header
is the message type followed by `dateTime` rendered through the profile's
`time_format` over the UTC calendar fields of the Unix timestamp. -/
theorem C6_header_quirk (conf : Config) (lat lon : String) (cv : Rat → Rat)
    (r : Record) (t t' : Int) :
    (strContains conf.station_model "accurite" = true →
      headerFrags (mkProfile conf lat lon) r =
        Except.ok [(mkProfile conf lat lon).message_type, ""] ∧
      buildData (mkProfile conf lat lon) cv { r with dateTime := some t } =
        buildData (mkProfile conf lat lon) cv { r with dateTime := some t' }) ∧
    (strContains conf.station_model "accurite" = false → r.dateTime = some t →
      headerFrags (mkProfile conf lat lon) r =
        Except.ok [(mkProfile conf lat lon).message_type,
          strftime (mkProfile conf lat lon).time_format (utcFromTimestamp t)]) := by
  constructor
  · intro hacc
    have hhd : ∀ r' : Record, headerFrags (mkProfile conf lat lon) r' =
        Except.ok [(mkProfile conf lat lon).message_type, ""] := by
      intro r'
      unfold headerFrags
      rw [mkProfile_stationModel, hacc]
      simp
    refine ⟨hhd r, ?_⟩
    unfold buildData
    rw [hhd { r with dateTime := some t }, hhd { r with dateTime := some t' }]
    rfl
  · intro hacc hdt
    unfold headerFrags
    rw [mkProfile_stationModel, hacc, hdt]
    simp

/-- **C6 witness.** With an accurite profile the header drops the timestamp
and the packet is unchanged when `dateTime` moves from `0` to `1`; with a
non-accurite profile the header renders `dateTime = 0` through
`"%m%d%H%M"`. -/
theorem C6_header_quirk_witness :
    (headerFrags (mkProfile { station_model := "accurite" } "" "") {} =
      Except.ok [(mkProfile { station_model := "accurite" } "" "").message_type, ""] ∧
     buildData (mkProfile { station_model := "accurite" } "" "") id
        { ({} : Record) with dateTime := some 0 } =
      buildData (mkProfile { station_model := "accurite" } "" "") id
        { ({} : Record) with dateTime := some 1 }) ∧
    headerFrags (mkProfile { station_model := "vantage-pro" } "" "")
        { dateTime := some 0 } =
      Except.ok [(mkProfile { station_model := "vantage-pro" } "" "").message_type,
        strftime (mkProfile { station_model := "vantage-pro" } "" "").time_format
          (utcFromTimestamp 0)] :=
  ⟨(C6_header_quirk { station_model := "accurite" } "" "" id {} 0 1).1 (by decide),
   (C6_header_quirk { station_model := "vantage-pro" } "" "" id
      { dateTime := some 0 } 0 0).2 (by decide) rfl⟩

/-- **C7.** Every successfully produced packet is the concatenation, in the
fixed order header, position block, wind direction, wind speed, gust,
temperature, rain rate, daily rain, humidity, barometer, luminosity,
comment, of the per-field fragment lists, and each optional block is
non-empty exactly under its stated condition (position iff
`include_position` is truthy; rain rate, daily rain, humidity, barometer
iff their field is present; luminosity iff `reportLuminosity == 1` and the
field is present; comment iff non-empty). -/
theorem C7_field_order (p : Profile) (cv : Rat → Rat) (r : Record)
    (L : List String) (h : buildData p cv r = Except.ok L) :
    ∃ hd ws dr pos,
      headerFrags p r = Except.ok hd ∧
      windSpeedFrag p.wind_speed_marker r.windSpeed = Except.ok ws ∧
      dailyRainFrags r = Except.ok dr ∧
      positionFrags p = Except.ok pos ∧
      L = hd ++ pos ++
          [windDirFrag p.wind_direction_marker r.windDir, ws,
           windGustFrag r.windGust, outTempFrag r.outTemp] ++
          rainRateFrags r.rainRate ++ dr ++ humidityFrags r.outHumidity ++
          barometerFrags cv r.barometer ++ luminosityFrags p r.luminosity ++
          commentFrags p ∧
      (pos ≠ [] ↔ p.include_position ≠ 0) ∧
      (rainRateFrags r.rainRate ≠ [] ↔ r.rainRate ≠ none) ∧
      (dr ≠ [] ↔ r.daily_rain ≠ none) ∧
      (humidityFrags r.outHumidity ≠ [] ↔ r.outHumidity ≠ none) ∧
      (barometerFrags cv r.barometer ≠ [] ↔ r.barometer ≠ none) ∧
      (luminosityFrags p r.luminosity ≠ [] ↔
        (p.reportLuminosity = 1 ∧ r.luminosity ≠ none)) ∧
      (commentFrags p ≠ [] ↔ p.comment ≠ "") := by
  rw [buildData_ok_iff] at h
  obtain ⟨hd, ws, dr, pos, hhd, hws, hdr, hpos, hL⟩ := h
  refine ⟨hd, ws, dr, pos, hhd, hws, hdr, hpos, hL, ?_, ?_, ?_, ?_, ?_, ?_, ?_⟩
  · unfold positionFrags at hpos
    by_cases hinc : p.include_position ≠ 0
    · rw [if_pos hinc] at hpos
      refine ⟨fun _ => hinc, fun _ => ?_⟩
      rcases hla : p.latitude with _ | la <;>
        rcases hlo : p.longitude with _ | lo <;>
          rw [hla, hlo] at hpos
      · exact absurd hpos (by simp)
      · exact absurd hpos (by simp)
      · exact absurd hpos (by simp)
      · have hp := Except.ok.inj hpos
        subst hp
        simp
    · rw [if_neg hinc] at hpos
      have hp := Except.ok.inj hpos
      subst hp
      push_neg at hinc
      constructor
      · intro hne
        exact absurd rfl hne
      · intro hne
        exact absurd hinc hne
  · cases hrr : r.rainRate <;> simp [rainRateFrags]
  · unfold dailyRainFrags at hdr
    cases hdaily : r.daily_rain with
    | none =>
      rw [hdaily] at hdr
      have := Except.ok.inj hdr
      subst this
      simp
    | some x =>
      rw [hdaily] at hdr
      cases hday : r.dayRain with
      | none => rw [hday] at hdr; exact absurd hdr (by simp)
      | some v =>
        rw [hday] at hdr
        have := Except.ok.inj hdr
        subst this
        simp
  · cases hh : r.outHumidity <;> simp [humidityFrags]
  · cases hb : r.barometer <;> simp [barometerFrags]
  · unfold luminosityFrags
    by_cases hf : p.reportLuminosity = 1
    · rw [if_pos hf]
      cases hl : r.luminosity <;> simp [hf]
    · rw [if_neg hf]
      simp [hf]
  · unfold commentFrags
    by_cases hc : p.comment = "" <;> simp [hc]

/-- **C7 witness.** A concrete successful encoding, decomposed in the fixed
order with all optional blocks empty. -/
theorem C7_field_order_witness :
    ∃ hd ws dr pos,
      headerFrags vantageProfile { dateTime := some 0 } = Except.ok hd ∧
      windSpeedFrag vantageProfile.wind_speed_marker
          (Record.windSpeed { dateTime := some 0 }) = Except.ok ws ∧
      dailyRainFrags { dateTime := some 0 } = Except.ok dr ∧
      positionFrags vantageProfile = Except.ok pos ∧
      ["_", "01010000", "c...", "s...", "g...", "t..."] = hd ++ pos ++
          [windDirFrag vantageProfile.wind_direction_marker
             (Record.windDir { dateTime := some 0 }), ws,
           windGustFrag (Record.windGust { dateTime := some 0 }),
           outTempFrag (Record.outTemp { dateTime := some 0 })] ++
          rainRateFrags (Record.rainRate { dateTime := some 0 }) ++ dr ++
          humidityFrags (Record.outHumidity { dateTime := some 0 }) ++
          barometerFrags id (Record.barometer { dateTime := some 0 }) ++
          luminosityFrags vantageProfile
            (Record.luminosity { dateTime := some 0 }) ++
          commentFrags vantageProfile ∧
      (pos ≠ [] ↔ vantageProfile.include_position ≠ 0) ∧
      (rainRateFrags (Record.rainRate { dateTime := some 0 }) ≠ [] ↔
        Record.rainRate { dateTime := some 0 } ≠ none) ∧
      (dr ≠ [] ↔ Record.daily_rain { dateTime := some 0 } ≠ none) ∧
      (humidityFrags (Record.outHumidity { dateTime := some 0 }) ≠ [] ↔
        Record.outHumidity { dateTime := some 0 } ≠ none) ∧
      (barometerFrags id (Record.barometer { dateTime := some 0 }) ≠ [] ↔
        Record.barometer { dateTime := some 0 } ≠ none) ∧
      (luminosityFrags vantageProfile
          (Record.luminosity { dateTime := some 0 }) ≠ [] ↔
        (vantageProfile.reportLuminosity = 1 ∧
          Record.luminosity { dateTime := some 0 } ≠ none)) ∧
      (commentFrags vantageProfile ≠ [] ↔ vantageProfile.comment ≠ "") :=
  C7_field_order vantageProfile id { dateTime := some 0 }
    ["_", "01010000", "c...", "s...", "g...", "t..."] (by decide)

/-- **C8.** The event handler is deterministic and stateless: it returns
the service state (the profile) unchanged, and running it a second time on
the same record from the state the first call left behind yields the
byte-identical packet. -/
theorem C8_deterministic_stateless (p : Profile) (cv : Rat → Rat) (r : Record) :
    (handleEvent p cv r).1 = p ∧
    (handleEvent ((handleEvent p cv r).1) cv r).2 = (handleEvent p cv r).2 :=
  ⟨rfl, rfl⟩

/-- **C9 counterexample.** The claim says the packet contains no newline
for every profile, including profiles whose comment is arbitrary configured
text.  A comment containing a newline is appended verbatim, so the packet
embeds the newline. -/
theorem C9_counterexample :
    handleRecord
        (mkProfile { station_model := "vantage-pro", comment := "alpha\nbeta" } "" "")
        id { dateTime := some 0 } =
      Except.ok "_01010000c...s...g...t...alpha\nbeta" ∧
    '\n' ∈ "_01010000c...s...g...t...alpha\nbeta".data :=
  ⟨by decide, by decide⟩

/-- **C9 amended.** For every profile resolved from a configuration whose
free-text strings (comment, symbol table, symbol code) and rendered
coordinate strings contain no newline, every successfully produced packet
contains no newline: all machine-generated fragments consist of markers,
digits, signs, dots and the time format's characters. -/
theorem C9_no_newline_amended (conf : Config) (lat lon : String)
    (cv : Rat → Rat) (r : Record) (s : String)
    (hcm : noNL conf.comment) (hst : noNL conf.symbol_table)
    (hsc : noNL conf.symbol_code) (hlat : noNL lat) (hlon : noNL lon)
    (h : handleRecord (mkProfile conf lat lon) cv r = Except.ok s) :
    noNL s := by
  unfold handleRecord at h
  cases hb : buildData (mkProfile conf lat lon) cv r with
  | error e =>
    rw [hb] at h
    exact absurd h (by simp [Except.map])
  | ok L =>
    rw [hb] at h
    simp only [Except.map] at h
    have hs := Except.ok.inj h
    subst hs
    apply noNL_join
    intro f hf
    rw [buildData_ok_iff] at hb
    obtain ⟨hd, ws, dr, pos, hhd, hws, hdr, hpos, rfl⟩ := hb
    have hmt : noNL (mkProfile conf lat lon).message_type := by
      rcases mkProfile_message_type conf lat lon with hm | hm <;>
        rw [hm] <;> unfold noNL <;> decide
    have hwdm : noNL (mkProfile conf lat lon).wind_direction_marker := by
      rcases mkProfile_wind_direction_marker conf lat lon with hm | hm | hm <;>
        rw [hm] <;> unfold noNL <;> decide
    have hwsm : ∀ s', (mkProfile conf lat lon).wind_speed_marker = some s' →
        noNL s' := by
      intro s' hs'
      rcases mkProfile_wind_speed_marker conf lat lon with hm | hm | hm <;>
        rw [hm] at hs'
      · injection hs' with he
        subst he
        unfold noNL
        decide
      · exact absurd hs' (by simp)
      · injection hs' with he
        subst he
        unfold noNL
        decide
    have hla' : ∀ s', (mkProfile conf lat lon).latitude = some s' → noNL s' := by
      intro s' hs'
      rw [mkProfile_latitude] at hs'
      split at hs'
      · injection hs' with he
        subst he
        exact hlat
      · exact absurd hs' (by simp)
    have hlo' : ∀ s', (mkProfile conf lat lon).longitude = some s' → noNL s' := by
      intro s' hs'
      rw [mkProfile_longitude] at hs'
      split at hs'
      · injection hs' with he
        subst he
        exact hlon
      · exact absurd hs' (by simp)
    rcases List.mem_append.mp hf with hf | hcom
    · rcases List.mem_append.mp hf with hf | hlum
      · rcases List.mem_append.mp hf with hf | hbar
        · rcases List.mem_append.mp hf with hf | hhum
          · rcases List.mem_append.mp hf with hf | hdrm
            · rcases List.mem_append.mp hf with hf | hrr
              · rcases List.mem_append.mp hf with hf | hmid
                · rcases List.mem_append.mp hf with hhdm | hposm
                  · exact noNL_headerFrags _ r hd hmt
                      (mkProfile_time_format conf lat lon) hhd f hhdm
                  · exact noNL_positionFrags _ pos hla' hlo'
                      (by rw [mkProfile_symbol_table]; exact hst)
                      (by rw [mkProfile_symbol_code]; exact hsc) hpos f hposm
                · rcases List.mem_cons.mp hmid with rfl | hmid
                  · exact noNL_windDirFrag _ _ hwdm
                  rcases List.mem_cons.mp hmid with rfl | hmid
                  · exact noNL_windSpeedFrag _ _ _ hwsm hws
                  rcases List.mem_cons.mp hmid with rfl | hmid
                  · exact noNL_windGustFrag _
                  rcases List.mem_cons.mp hmid with rfl | hmid
                  · exact noNL_outTempFrag _
                  exact absurd hmid (List.not_mem_nil f)
              · exact noNL_rainRateFrags _ f hrr
            · exact noNL_dailyRainFrags r dr hdr f hdrm
          · exact noNL_humidityFrags _ f hhum
        · exact noNL_barometerFrags cv _ f hbar
      · exact noNL_luminosityFrags _ _ f hlum
    · exact noNL_commentFrags _
        (by rw [mkProfile_comment]; exact hcm) f hcom

/-- **C9 amended, witness.** A concrete newline-free configuration yields a
newline-free packet. -/
theorem C9_no_newline_amended_witness :
    noNL "_01010000c...s...g...t..." :=
  C9_no_newline_amended { station_model := "vantage-pro" } "" "" id
    { dateTime := some 0 } "_01010000c...s...g...t..."
    (by unfold noNL; decide) (by unfold noNL; decide) (by unfold noNL; decide)
    (by unfold noNL; decide) (by unfold noNL; decide) (by decide)

/-- **C10.** The luminosity fragment is gated on `_reportLuminosity == 1`
exactly: any other configured integer (for example `2`), although truthy,
suppresses the fragment even when the `luminosity` field is present; with
the flag exactly `1` and the field present the fragment `'L' + '%03.u'` is
appended. -/
theorem C10_luminosity_exact_one (p : Profile) (cv : Rat → Rat) (r : Record)
    (L : List String) (h : buildData p cv r = Except.ok L) :
    (p.reportLuminosity ≠ 1 → luminosityFrags p r.luminosity = []) ∧
    (r.luminosity = none → luminosityFrags p r.luminosity = []) ∧
    (∀ v, p.reportLuminosity = 1 → r.luminosity = some v →
      luminosityFrags p r.luminosity = ["L" ++ fmtInt 3 (pyTrunc v)] ∧
      ("L" ++ fmtInt 3 (pyTrunc v)) ∈ L) := by
  rw [buildData_ok_iff] at h
  obtain ⟨hd, ws, dr, pos, hhd, hws, hdr, hpos, rfl⟩ := h
  refine ⟨?_, ?_, ?_⟩
  · intro hne
    unfold luminosityFrags
    rw [if_neg hne]
  · intro hnone
    unfold luminosityFrags
    rw [hnone]
    split <;> rfl
  · intro v h1 hv
    have hfrag : luminosityFrags p r.luminosity =
        ["L" ++ fmtInt 3 (pyTrunc v)] := by
      unfold luminosityFrags
      rw [if_pos h1, hv]
    refine ⟨hfrag, ?_⟩
    have hmem : ("L" ++ fmtInt 3 (pyTrunc v)) ∈ luminosityFrags p r.luminosity := by
      rw [hfrag]
      simp
    simp only [List.mem_append]
    tauto

/-- **C10 witness.** With `report_luminosity = 2` (truthy but not `1`) and
`luminosity = 5` present, no fragment is emitted; with `report_luminosity
= 1` the fragment `L` + `%03.u` of `5` is appended. -/
theorem C10_luminosity_exact_one_witness :
    luminosityFrags
        (mkProfile { station_model := "vantage-pro", report_luminosity := 2 } "" "")
        (Record.luminosity { dateTime := some 0, luminosity := some 5 }) = [] ∧
    luminosityFrags
        (mkProfile { station_model := "vantage-pro", report_luminosity := 1 } "" "")
        (Record.luminosity { dateTime := some 0, luminosity := some 5 }) =
      ["L" ++ fmtInt 3 (pyTrunc 5)] ∧
    ("L" ++ fmtInt 3 (pyTrunc 5)) ∈
      ["_", "01010000", "c...", "s...", "g...", "t...", "L005"] :=
  ⟨(C10_luminosity_exact_one
      (mkProfile { station_model := "vantage-pro", report_luminosity := 2 } "" "")
      id { dateTime := some 0, luminosity := some 5 }
      ["_", "01010000", "c...", "s...", "g...", "t..."] (by decide)).1 (by decide),
   ((C10_luminosity_exact_one
      (mkProfile { station_model := "vantage-pro", report_luminosity := 1 } "" "")
      id { dateTime := some 0, luminosity := some 5 }
      ["_", "01010000", "c...", "s...", "g...", "t...", "L005"] (by decide)).2.2
      5 (by decide) rfl).1,
   ((C10_luminosity_exact_one
      (mkProfile { station_model := "vantage-pro", report_luminosity := 1 } "" "")
      id { dateTime := some 0, luminosity := some 5 }
      ["_", "01010000", "c...", "s...", "g...", "t...", "L005"] (by decide)).2.2
      5 (by decide) rfl).2⟩

end WeewxAprs
